import Mathlib

/-!
# Verification of the smfc fan-controller engine (`src/smfc.py`)

Shallow embedding of the control and decision engine of `smfc.py`:

* the temperature-to-fan-level curve computed in `FanController.run` (step 3),
* the per-tick state machine of `FanController.run` (polling gate, hysteresis,
  level application),
* the temperature aggregation functions `get_min_temp` / `get_avg_temp` /
  `get_max_temp`,
* construction-time validation (`FanController.__init__`,
  `FanController.build_hwmon_path`, `HdZone.__init__`),
* the standby guard (`HdZone.run_standby_guard`, `HdZone.go_standby_state`,
  `HdZone.check_standby_state`, `HdZone.callback_func`),
* one iteration of the `main` orchestrator loop.

Modelling conventions:

* Python `float` values (temperatures, timestamps, sensitivity, polling) are
  embedded as exact rationals `ℚ`; `int` values (levels, steps, counts) as `ℤ`
  or `ℕ`.  Python's builtin `round` (round-half-to-even) is `pythonRound`.
  On every concrete input used below the double-precision computation of the
  source coincides with the exact rational computation.
* I/O is externalized: file reads, `smartctl` queries and IPMI writes are
  inputs (`Option`-valued for fallible reads) and outputs (lists of performed
  writes); a raised Python exception is a `raised`/`Except.error` result.
* Calls to `Log.msg` are recorded as `LogEvent` values (severity and a tag
  identifying the call site); delivery gating by the configured log level and
  message formatting are plumbing outside the engine.
-/

namespace Smfc

/-- Python's builtin one-argument `round`: round half to even, on exact
rationals (the source computes `int(round(x))` on floats). -/
def pythonRound (q : ℚ) : ℤ :=
  if q - ⌊q⌋ < 1/2 then ⌊q⌋
  else if 1/2 < q - ⌊q⌋ then ⌊q⌋ + 1
  else if ⌊q⌋ % 2 = 0 then ⌊q⌋ else ⌊q⌋ + 1

/-- Log severity constants of class `Log`. -/
def LOG_ERROR : ℤ := 1

def LOG_INFO : ℤ := 2

def LOG_DEBUG : ℤ := 3

/-- Tags identifying the `Log.msg` call sites of the engine. -/
inductive LogTag where
  | new_temperature
  | new_level
  | standby_disabled_notice
  | standby_transition
  deriving DecidableEq, Repr

/-- One recorded `Log.msg` call: severity and call site. -/
structure LogEvent where
  level : ℤ
  tag : LogTag
  deriving DecidableEq, Repr

/-- Configuration parameters of `FanController` fixed at construction
(`FanController.__init__`).  `temp_step` and `level_step` are derived,
see `temp_step` / `level_step` below. -/
structure FanConfig where
  ipmi_zone : ℤ
  count : ℕ
  temp_calc : ℤ
  steps : ℤ
  sensitivity : ℚ
  polling : ℚ
  min_temp : ℚ
  max_temp : ℚ
  min_level : ℤ
  max_level : ℤ
  deriving DecidableEq, Repr

/-- Derived value `self.temp_step = (max_temp - min_temp) / steps`. -/
def temp_step (c : FanConfig) : ℚ :=
  (c.max_temp - c.min_temp) / (c.steps : ℚ)

/-- Derived value `self.level_step = (max_level - min_level) / steps`. -/
def level_step (c : FanConfig) : ℚ :=
  ((c.max_level : ℚ) - (c.min_level : ℚ)) / (c.steps : ℚ)

/-- Step 3 of `FanController.run`: compute `(current_gain, current_level)`
from the measured temperature. -/
def calc_gain_level (c : FanConfig) (current_temp : ℚ) : ℤ × ℤ :=
  if current_temp ≤ c.min_temp then
    (0, c.min_level)
  else if c.max_temp ≤ current_temp then
    (c.steps, c.max_level)
  else
    let current_gain := pythonRound ((current_temp - c.min_temp) / temp_step c)
    (current_gain, pythonRound ((current_gain : ℚ) * level_step c) + c.min_level)

/-- The mutable per-tick state of a `FanController`
(`last_time`, `last_temp`, `last_level`). -/
structure FanState where
  last_time : ℚ
  last_temp : ℚ
  last_level : ℤ
  deriving DecidableEq, Repr

/-- Result of one call of `FanController.run`: the controller state after the
call, the fan levels written through `Ipmi.set_fan_level`, the `Log.msg`
calls made, and whether an exception escaped the call. -/
structure RunResult where
  state : FanState
  writes : List ℤ
  logs : List LogEvent
  raised : Bool
  deriving DecidableEq, Repr

/-- Model of `FanController.run` for a controller whose `callback_func` is the no-op of
the base class (the CPU zone; the HD zone adds the standby guard, modelled
separately by `run_standby_guard`).  External inputs: the current monotonic
time, the result of `get_temp_func` (`none` models a raised `IOError`), and
whether the `set_fan_level` write succeeds.  Mutations happen in source
order, so state updated before a raise stays updated. -/
def FanController.run (c : FanConfig) (s : FanState) (current_time : ℚ)
    (read_temp : Option ℚ) (write_ok : Bool) : RunResult :=
  -- Step 1: check the elapsed time.
  if current_time - s.last_time < c.polling then
    ⟨s, [], [], false⟩
  else
    let s₁ : FanState := { s with last_time := current_time }
    -- Step 2: read temperature and sensitivity gap.
    match read_temp with
    | none => ⟨s₁, [], [], true⟩
    | some current_temp =>
      let logs₁ : List LogEvent := [⟨LOG_DEBUG, .new_temperature⟩]
      if |current_temp - s₁.last_temp| < c.sensitivity then
        ⟨s₁, [], logs₁, false⟩
      else
        let s₂ : FanState := { s₁ with last_temp := current_temp }
        -- Step 3: calculate gain and fan level.
        let current_level := (calc_gain_level c current_temp).2
        -- Step 4: the new fan level will be set and logged.
        if current_level = s₂.last_level then
          ⟨s₂, [], logs₁, false⟩
        else
          let s₃ : FanState := { s₂ with last_level := current_level }
          if write_ok then
            ⟨s₃, [current_level], logs₁ ++ [⟨LOG_INFO, .new_level⟩], false⟩
          else
            ⟨s₃, [], logs₁, true⟩

/-! ## Temperature aggregation (`FanController.get_min_temp` /
`get_avg_temp` / `get_max_temp`)

Each element of `raws` is the numeric content of one hwmon endpoint
(millidegrees Celsius); the source divides each by 1000 while folding. -/

/-- The per-endpoint values in degrees Celsius (`float(f.read()) / 1000`). -/
def read_values (raws : List ℚ) : List ℚ :=
  raws.map (fun r => r / 1000)

/-- Model of `FanController.get_min_temp`: fold starting from `minimum = 1000.0`,
updating when `value < minimum`. -/
def get_min_temp (raws : List ℚ) : ℚ :=
  raws.foldl
    (fun minimum r =>
      let value := r / 1000
      if value < minimum then value else minimum)
    1000

/-- Model of `FanController.get_avg_temp`: accumulate `average` and `counter` over the
endpoints, then return `average / counter`. -/
def get_avg_temp (raws : List ℚ) : ℚ :=
  let p := raws.foldl (fun ac r => (ac.1 + r / 1000, ac.2 + 1)) ((0 : ℚ), (0 : ℕ))
  p.1 / (p.2 : ℚ)

/-- Model of `FanController.get_max_temp`: fold starting from `maximum = -1.0`,
updating when `value > maximum`. -/
def get_max_temp (raws : List ℚ) : ℚ :=
  raws.foldl
    (fun maximum r =>
      let value := r / 1000
      if maximum < value then value else maximum)
    (-1)

/-! ## Construction-time validation (`FanController.__init__`,
`FanController.build_hwmon_path`, `HdZone.__init__`) -/

/-- Constant `Ipmi.CPU_ZONE`. -/
def CPU_ZONE : ℤ := 0

/-- Constant `Ipmi.HD_ZONE`. -/
def HD_ZONE : ℤ := 1

/-- Constant `FanController.CALC_MIN`. -/
def CALC_MIN : ℤ := 0

/-- Constant `FanController.CALC_AVG`. -/
def CALC_AVG : ℤ := 1

/-- Constant `FanController.CALC_MAX`. -/
def CALC_MAX : ℤ := 2

/-- The `ValueError` / `Exception` raise sites of zone construction, one
constructor per raise. -/
inductive ConfigErr where
  | invalid_ipmi_zone
  | count_le_zero
  | invalid_temp_calc
  | steps_le_zero
  | sensitivity_le_zero
  | polling_negative
  | max_temp_lt_min_temp
  | max_level_lt_min_level
  | hwmon_count_mismatch
  | hwmon_missing_file
  | test_read_failed
  | hd_names_missing
  | hd_names_count_mismatch
  | standby_hd_limit_neg
  | standby_hd_limit_gt_count
  deriving DecidableEq, Repr

/-- Wildcard resolution and existence check for one hwmon path
(`FanController.build_hwmon_path`, loop body).  `glob_fn` models
`glob.glob`, `isfile` models `os.path.isfile`. -/
def resolve_hwmon (glob_fn : String → List String) (isfile : String → Bool)
    (p : String) : Except ConfigErr String :=
  if p.contains '?' || p.contains '*' then
    match glob_fn p with
    | [] => .error .hwmon_missing_file
    | q :: _ =>
      if isfile q then .ok q else .error .hwmon_missing_file
  else if isfile p then .ok p else .error .hwmon_missing_file

/-- Model of `FanController.build_hwmon_path`: an empty `hwmon_str` does nothing (the
zone subclasses then auto-construct paths); otherwise the already-split list
must match `count` and every element must resolve to an existing file. -/
def build_hwmon_path (count : ℕ) (hwmon_str : List String)
    (glob_fn : String → List String) (isfile : String → Bool) :
    Except ConfigErr (List String) :=
  if hwmon_str.isEmpty then .ok []
  else if hwmon_str.length ≠ count then .error .hwmon_count_mismatch
  else hwmon_str.mapM (resolve_hwmon glob_fn isfile)

/-- Model of `FanController.__init__`: parameter validation in source order, hwmon path
construction, the construction-time test read (`test_read_ok` models whether
`get_temp_func()` succeeds), and initialization of the measured values
(`last_temp = 0`, `last_level = 0`,
`last_time = time.monotonic() - (polling + 1)` with `now` the monotonic time
at construction). -/
def fan_controller_init (ipmi_zone count temp_calc steps : ℤ)
    (sensitivity polling min_temp max_temp : ℚ) (min_level max_level : ℤ)
    (hwmon_str : List String) (glob_fn : String → List String)
    (isfile : String → Bool) (test_read_ok : Bool) (now : ℚ) :
    Except ConfigErr (FanConfig × FanState × List String) :=
  if ¬(ipmi_zone = CPU_ZONE ∨ ipmi_zone = HD_ZONE) then .error .invalid_ipmi_zone
  else if count ≤ 0 then .error .count_le_zero
  else if ¬(temp_calc = CALC_MIN ∨ temp_calc = CALC_AVG ∨ temp_calc = CALC_MAX) then
    .error .invalid_temp_calc
  else if steps ≤ 0 then .error .steps_le_zero
  else if sensitivity ≤ 0 then .error .sensitivity_le_zero
  else if polling < 0 then .error .polling_negative
  else if max_temp < min_temp then .error .max_temp_lt_min_temp
  else if max_level < min_level then .error .max_level_lt_min_level
  else
    match build_hwmon_path count.toNat hwmon_str glob_fn isfile with
    | .error e => .error e
    | .ok paths =>
      if ¬hwmon_str.isEmpty ∧ ¬test_read_ok then .error .test_read_failed
      else
        .ok (⟨ipmi_zone, count.toNat, temp_calc, steps, sensitivity, polling,
              min_temp, max_temp, min_level, max_level⟩,
             ⟨now - (polling + 1), 0, 0⟩, paths)

/-! ## Standby guard (`HdZone`) -/

/-- The mutable standby-guard state of `HdZone` (`standby_flag`,
`standby_change_timestamp`, `standby_array_states`). -/
structure StandbyState where
  standby_flag : Bool
  standby_change_timestamp : ℚ
  standby_array_states : List Bool
  deriving DecidableEq, Repr

/-- Model of `HdZone.check_standby_state` on a successful `smartctl` query round:
`query` holds, per configured disk in order, whether its output reports
STANDBY.  The per-disk states are stored and the number of disks in STANDBY
is returned.  (A return code outside `{0, 2}` would raise; the failure path
is not needed by the claims below.) -/
def check_standby_state (query : List Bool) : List Bool × ℕ :=
  (query, query.count true)

/-- Loop body of `HdZone.go_standby_state` from disk index `i` on: each disk
still ACTIVE gets one `smartctl -s standby,now` write (recorded by index, in
configured order) and its state set to `True`. -/
def go_standby_aux : List Bool → ℕ → List Bool × List ℕ
  | [], _ => ([], [])
  | b :: rest, i =>
    let r := go_standby_aux rest (i + 1)
    if b then (true :: r.1, r.2) else (true :: r.1, i :: r.2)

/-- Model of `HdZone.go_standby_state` (writes assumed successful; a failing write
would raise mid-loop). -/
def go_standby_state (states : List Bool) : List Bool × List ℕ :=
  go_standby_aux states 0

/-- Result of one `HdZone.run_standby_guard` invocation: the new guard state,
the indices of the disks forced to STANDBY (in order), and the `Log.msg`
calls made. -/
structure GuardResult where
  guard_state : StandbyState
  writes : List ℕ
  logs : List LogEvent
  deriving DecidableEq, Repr

/-- Model of `HdZone.run_standby_guard` on a successful query round. -/
def run_standby_guard (count : ℕ) (standby_hd_limit : ℤ) (query : List Bool)
    (cur_time : ℚ) (s : StandbyState) : GuardResult :=
  -- Step 1: check the current power state of the HD array.
  let checked := check_standby_state query
  let hds_in_standby := checked.2
  -- Step 2: check if the array is going to STANDBY state.
  if ¬s.standby_flag ∧ standby_hd_limit ≤ (hds_in_standby : ℤ) then
    let g := go_standby_state checked.1
    ⟨⟨true, cur_time, g.1⟩, g.2, [⟨LOG_INFO, .standby_transition⟩]⟩
  -- Step 3: check if the array is waking up.
  else if s.standby_flag ∧ hds_in_standby < count then
    ⟨⟨false, cur_time, checked.1⟩, [], [⟨LOG_INFO, .standby_transition⟩]⟩
  else
    ⟨⟨s.standby_flag, s.standby_change_timestamp, checked.1⟩, [], []⟩

/-- The parts of a constructed `HdZone` the claims are about. -/
structure HdZone where
  config : FanConfig
  fan_state : FanState
  standby_guard_enabled : Bool
  standby_hd_limit : ℤ
  standby : Option StandbyState
  deriving DecidableEq, Repr

/-- Model of `HdZone.__init__`: count and `hd_names` validation, the inherited
`FanController.__init__`, forced disabling of the standby guard for a single
disk (with its one `LOG_INFO` notice), `standby_hd_limit` validation, and the
initial `check_standby_state` query (`initial_query`, assumed successful).
DEBUG-level configuration dumps are reporting only and not recorded. -/
def hd_zone_init (count : ℤ) (hd_names : List String) (temp_calc steps : ℤ)
    (sensitivity polling min_temp max_temp : ℚ) (min_level max_level : ℤ)
    (hwmon_str : List String) (glob_fn : String → List String)
    (isfile : String → Bool) (test_read_ok : Bool)
    (standby_guard_enabled_cfg : Bool) (standby_hd_limit : ℤ)
    (initial_query : List Bool) (now : ℚ) :
    Except ConfigErr (HdZone × List LogEvent) :=
  if count ≤ 0 then .error .count_le_zero
  else if hd_names.isEmpty then .error .hd_names_missing
  else if hd_names.length ≠ count.toNat then .error .hd_names_count_mismatch
  else
    match fan_controller_init HD_ZONE count temp_calc steps sensitivity polling
        min_temp max_temp min_level max_level hwmon_str glob_fn isfile
        test_read_ok now with
    | .error e => .error e
    | .ok (c, s, _paths) =>
      let logs : List LogEvent :=
        if count = 1 then [⟨LOG_INFO, .standby_disabled_notice⟩] else []
      let enabled : Bool := if count = 1 then false else standby_guard_enabled_cfg
      if enabled then
        if standby_hd_limit < 0 then .error .standby_hd_limit_neg
        else if count < standby_hd_limit then .error .standby_hd_limit_gt_count
        else
          let n := (check_standby_state initial_query).2
          .ok (⟨c, s, true, standby_hd_limit,
                some ⟨decide (n = count.toNat), now, initial_query⟩⟩, logs)
      else .ok (⟨c, s, false, standby_hd_limit, none⟩, logs)

/-- Model of `HdZone.callback_func`: run the standby guard only when it is enabled. -/
def callback_func (z : HdZone) (query : List Bool) (cur_time : ℚ) :
    HdZone × List ℕ × List LogEvent :=
  if z.standby_guard_enabled then
    match z.standby with
    | some st =>
      let r := run_standby_guard z.config.count z.standby_hd_limit query cur_time st
      ({ z with standby := some r.guard_state }, r.writes, r.logs)
    | none => (z, [], [])
  else (z, [], [])

/-! ## One iteration of the `main` orchestrator loop -/

/-- Result of one iteration of the `while True` loop of `main`. -/
structure MainIterResult where
  cpu_state : FanState
  hd_state : FanState
  writes : List ℤ
  logs : List LogEvent
  crashed : Bool
  deriving DecidableEq, Repr

/-- One iteration of the `main` loop (`my_cpu_zone.run()` then
`my_hd_zone.run()`).  The loop body has no exception handler, so a raise in
the CPU zone's tick propagates out of `main` before the HD zone's tick runs,
and a raise in either tick terminates the loop (`crashed`).  The HD tick is
modelled with the base-class no-op callback; the standby-guard hook is
modelled separately by `run_standby_guard`. -/
def main_iteration (cpu_enabled hd_enabled : Bool) (cpu_c : FanConfig)
    (cpu_s : FanState) (hd_c : FanConfig) (hd_s : FanState) (current_time : ℚ)
    (cpu_read hd_read : Option ℚ) (cpu_write_ok hd_write_ok : Bool) :
    MainIterResult :=
  if cpu_enabled then
    let rc := FanController.run cpu_c cpu_s current_time cpu_read cpu_write_ok
    if rc.raised then ⟨rc.state, hd_s, rc.writes, rc.logs, true⟩
    else if hd_enabled then
      let rh := FanController.run hd_c hd_s current_time hd_read hd_write_ok
      ⟨rc.state, rh.state, rc.writes ++ rh.writes, rc.logs ++ rh.logs, rh.raised⟩
    else ⟨rc.state, hd_s, rc.writes, rc.logs, false⟩
  else if hd_enabled then
    let rh := FanController.run hd_c hd_s current_time hd_read hd_write_ok
    ⟨cpu_s, rh.state, rh.writes, rh.logs, rh.raised⟩
  else ⟨cpu_s, hd_s, [], [], false⟩

/-- The default CPU-zone configuration of `CpuZone.__init__` (all config
fallbacks): count 1, `CALC_AVG`, 6 steps, sensitivity 3.0, polling 2,
temperatures 30–60 °C, levels 35–100 %. -/
def cpu_zone_default_config : FanConfig :=
  ⟨CPU_ZONE, 1, CALC_AVG, 6, 3, 2, 30, 60, 35, 100⟩

/-- Whether a construction attempt raised (`True` exactly when the
constructor aborted with an error, so no controller object was created). -/
def is_config_error {α : Type} : Except ConfigErr α → Bool
  | .error _ => true
  | .ok _ => false

/-!
## Helper lemmas on `pythonRound`
-/

theorem floor_le_pythonRound (q : ℚ) : ⌊q⌋ ≤ pythonRound q := by
  unfold pythonRound
  split_ifs <;> omega

theorem pythonRound_le_floor_add_one (q : ℚ) : pythonRound q ≤ ⌊q⌋ + 1 := by
  unfold pythonRound
  split_ifs <;> omega

theorem pythonRound_eq_floor {q : ℚ} (h : q - ⌊q⌋ < 1/2) :
    pythonRound q = ⌊q⌋ := by
  unfold pythonRound
  rw [if_pos h]

theorem pythonRound_eq_floor_add_one {q : ℚ} (h : 1/2 < q - ⌊q⌋) :
    pythonRound q = ⌊q⌋ + 1 := by
  unfold pythonRound
  rw [if_neg (by linarith), if_pos h]

theorem pythonRound_tie {q : ℚ} (h : q - ⌊q⌋ = 1/2) :
    pythonRound q = if ⌊q⌋ % 2 = 0 then ⌊q⌋ else ⌊q⌋ + 1 := by
  unfold pythonRound
  rw [if_neg (by rw [h]; norm_num), if_neg (by rw [h]; norm_num)]

theorem pythonRound_mono {x y : ℚ} (h : x ≤ y) :
    pythonRound x ≤ pythonRound y := by
  have hf : ⌊x⌋ ≤ ⌊y⌋ := Int.floor_le_floor h
  rcases lt_or_eq_of_le hf with hlt | heq
  · have h1 := pythonRound_le_floor_add_one x
    have h2 := floor_le_pythonRound y
    omega
  · have hxy : x - ⌊x⌋ ≤ y - ⌊y⌋ := by
      rw [← heq]
      linarith
    rcases lt_trichotomy (x - ⌊x⌋) (1/2) with hx1 | hx2 | hx3
    · rw [pythonRound_eq_floor hx1]
      have := floor_le_pythonRound y
      omega
    · rcases lt_or_eq_of_le (by linarith : (1:ℚ)/2 ≤ y - ⌊y⌋) with hy2 | hy1
      · rw [pythonRound_eq_floor_add_one hy2]
        have := pythonRound_le_floor_add_one x
        omega
      · rw [pythonRound_tie hx2, pythonRound_tie hy1.symm, heq]
    · have hy3 : 1/2 < y - ⌊y⌋ := by linarith
      rw [pythonRound_eq_floor_add_one hx3, pythonRound_eq_floor_add_one hy3]
      omega

theorem pythonRound_nonneg {q : ℚ} (h : 0 ≤ q) : 0 ≤ pythonRound q := by
  have h1 : (0:ℤ) ≤ ⌊q⌋ := Int.floor_nonneg.mpr h
  have := floor_le_pythonRound q
  omega

theorem pythonRound_intCast (n : ℤ) : pythonRound (n : ℚ) = n := by
  have h : ((n : ℚ) - ⌊(n : ℚ)⌋ : ℚ) = 0 := by
    rw [Int.floor_intCast]
    ring
  rw [pythonRound_eq_floor (by rw [h]; norm_num), Int.floor_intCast]

theorem pythonRound_le_of_le_intCast {q : ℚ} {n : ℤ} (h : q ≤ (n : ℚ)) :
    pythonRound q ≤ n := by
  have := pythonRound_mono h
  rwa [pythonRound_intCast] at this

/-!
## Helper lemmas on the level curve
-/

theorem calc_gain_level_low {c : FanConfig} {t : ℚ} (h : t ≤ c.min_temp) :
    calc_gain_level c t = (0, c.min_level) := by
  simp [calc_gain_level, h]

theorem calc_gain_level_high {c : FanConfig} {t : ℚ} (h1 : ¬t ≤ c.min_temp)
    (h2 : c.max_temp ≤ t) : calc_gain_level c t = (c.steps, c.max_level) := by
  simp [calc_gain_level, h1, h2]

theorem calc_gain_level_interior {c : FanConfig} {t : ℚ} (h1 : ¬t ≤ c.min_temp)
    (h2 : ¬c.max_temp ≤ t) :
    calc_gain_level c t =
      (pythonRound ((t - c.min_temp) / temp_step c),
       pythonRound ((pythonRound ((t - c.min_temp) / temp_step c) : ℚ) *
         level_step c) + c.min_level) := by
  simp [calc_gain_level, h1, h2]

theorem steps_cast_pos {c : FanConfig} (hs : 1 ≤ c.steps) :
    (0 : ℚ) < (c.steps : ℚ) := by
  exact_mod_cast (by omega : (0:ℤ) < c.steps)

theorem level_step_nonneg {c : FanConfig} (hs : 1 ≤ c.steps)
    (hl : c.min_level ≤ c.max_level) : 0 ≤ level_step c := by
  have h1 : (c.min_level : ℚ) ≤ (c.max_level : ℚ) := by exact_mod_cast hl
  exact div_nonneg (by linarith) (le_of_lt (steps_cast_pos hs))

theorem calc_level_ge_min (c : FanConfig) (hs : 1 ≤ c.steps)
    (hl : c.min_level ≤ c.max_level) (t : ℚ) :
    c.min_level ≤ (calc_gain_level c t).2 := by
  by_cases h1 : t ≤ c.min_temp
  · rw [calc_gain_level_low h1]
  · by_cases h2 : c.max_temp ≤ t
    · rw [calc_gain_level_high h1 h2]
      exact hl
    · rw [calc_gain_level_interior h1 h2]
      push_neg at h1 h2
      have hts : 0 < temp_step c := by
        have : (0:ℚ) < c.max_temp - c.min_temp := by linarith
        exact div_pos this (steps_cast_pos hs)
      have hg : 0 ≤ pythonRound ((t - c.min_temp) / temp_step c) :=
        pythonRound_nonneg (le_of_lt (div_pos (by linarith) hts))
      have hmul : 0 ≤ (pythonRound ((t - c.min_temp) / temp_step c) : ℚ) *
          level_step c :=
        mul_nonneg (by exact_mod_cast hg) (level_step_nonneg hs hl)
      have := pythonRound_nonneg hmul
      omega

theorem calc_level_le_max (c : FanConfig) (hs : 1 ≤ c.steps)
    (hl : c.min_level ≤ c.max_level) (t : ℚ) :
    (calc_gain_level c t).2 ≤ c.max_level := by
  by_cases h1 : t ≤ c.min_temp
  · rw [calc_gain_level_low h1]
    exact hl
  · by_cases h2 : c.max_temp ≤ t
    · rw [calc_gain_level_high h1 h2]
    · rw [calc_gain_level_interior h1 h2]
      push_neg at h1 h2
      have hsp := steps_cast_pos hs
      have hts : 0 < temp_step c := by
        have : (0:ℚ) < c.max_temp - c.min_temp := by linarith
        exact div_pos this hsp
      have hgle : pythonRound ((t - c.min_temp) / temp_step c) ≤ c.steps := by
        apply pythonRound_le_of_le_intCast
        rw [div_le_iff₀ hts, temp_step]
        field_simp
        linarith
      have hg : 0 ≤ pythonRound ((t - c.min_temp) / temp_step c) :=
        pythonRound_nonneg (le_of_lt (div_pos (by linarith) hts))
      have hmul : (pythonRound ((t - c.min_temp) / temp_step c) : ℚ) *
          level_step c ≤ ((c.max_level - c.min_level : ℤ) : ℚ) := by
        have h1 : (pythonRound ((t - c.min_temp) / temp_step c) : ℚ) *
            level_step c ≤ (c.steps : ℚ) * level_step c :=
          mul_le_mul_of_nonneg_right (by exact_mod_cast hgle)
            (level_step_nonneg hs hl)
        have h2 : (c.steps : ℚ) * level_step c =
            ((c.max_level - c.min_level : ℤ) : ℚ) := by
          rw [level_step]
          push_cast
          field_simp
        linarith
      have := pythonRound_le_of_le_intCast hmul
      omega

/-- Shared helper: a tick whose polling gate has passed and whose fresh
reading is inside the sensitivity band returns in the Steady branch:
`last_temp` and `last_level` are unchanged, no write is issued, only the
DEBUG temperature log call is made, and `last_time` is advanced. -/
theorem run_steady (c : FanConfig) (s : FanState) (current_time t : ℚ)
    (w : Bool) (hpoll : c.polling ≤ current_time - s.last_time)
    (hsens : |t - s.last_temp| < c.sensitivity) :
    FanController.run c s current_time (some t) w =
      ⟨⟨current_time, s.last_temp, s.last_level⟩, [],
       [⟨LOG_DEBUG, .new_temperature⟩], false⟩ := by
  unfold FanController.run
  rw [if_neg (not_lt.mpr hpoll)]
  simp only []
  rw [if_pos hsens]

/-!
## C1, C2, C6 — level curve and hysteresis
-/

/-- C1 counterexample: with the valid configuration `min_temp = max_temp = 40`,
`min_level = 35`, `max_level = 100` (construction accepts it: the checks are
`max_temp < min_temp` and `max_level < min_level`), the tick's level curve
gives `level(max_temp) = 35 = min_level`, not `max_level = 100`: the claim
`level(max_temp) = max_level` fails for this valid configuration. -/
theorem level_curve_endpoint_cex :
    fan_controller_init 0 1 1 6 3 2 40 40 35 100 []
        (fun _ => []) (fun _ => true) true 0 =
      .ok (⟨0, 1, 1, 6, 3, 2, 40, 40, 35, 100⟩, ⟨-3, 0, 0⟩, []) ∧
    (calc_gain_level ⟨0, 1, 1, 6, 3, 2, 40, 40, 35, 100⟩ 40).2 = 35 := by
  constructor
  · norm_num [fan_controller_init, build_hwmon_path, CPU_ZONE, HD_ZONE,
      CALC_MIN, CALC_AVG, CALC_MAX]
  ·  norm_num [calc_gain_level]

/-- C1 (amended): the level curve computed in a tick satisfies
`level(min_temp) = min_level` for every configuration, and
`level(max_temp) = max_level` for every configuration with
`min_temp < max_temp` (for the degenerate valid configuration
`min_temp = max_temp` the `temp <= min_temp` branch wins and yields
`min_level`); for the default CPU-zone configuration (steps=6, min_temp=30,
max_temp=60, min_level=35, max_level=100), `level(30) = 35`,
`level(45) = 67` at step 3 of 6, and `level(60) = 100`. -/
theorem level_curve_endpoint_values (c : FanConfig)
    (hlt : c.min_temp < c.max_temp) :
    (calc_gain_level c c.min_temp).2 = c.min_level ∧
    (calc_gain_level c c.max_temp).2 = c.max_level ∧
    calc_gain_level cpu_zone_default_config 30 = (0, 35) ∧
    calc_gain_level cpu_zone_default_config 45 = (3, 67) ∧
    calc_gain_level cpu_zone_default_config 60 = (6, 100) := by
  refine ⟨?_, ?_, ?_, ?_, ?_⟩
  · rw [calc_gain_level_low (le_refl _)]
  · rw [calc_gain_level_high (by push_neg; exact hlt) (le_refl _)]
  · norm_num [calc_gain_level, cpu_zone_default_config, CPU_ZONE, CALC_AVG]
  · norm_num [calc_gain_level, cpu_zone_default_config, CPU_ZONE, CALC_AVG,
      temp_step, level_step, pythonRound]
  · norm_num [calc_gain_level, cpu_zone_default_config, CPU_ZONE, CALC_AVG]

theorem level_curve_endpoint_values_witness :
    (calc_gain_level cpu_zone_default_config 30).2 = 35 ∧
    calc_gain_level cpu_zone_default_config 45 = (3, 67) := by
  have h := level_curve_endpoint_values cpu_zone_default_config
    (by norm_num [cpu_zone_default_config])
  exact ⟨by simpa using h.2.2.1.symm ▸ rfl, h.2.2.2.1⟩

/-- C6: for every valid configuration (`steps ≥ 1`, `max_temp ≥ min_temp`,
`max_level ≥ min_level`) the temperature-to-level mapping of a tick is
monotonic non-decreasing: `t1 ≤ t2` implies `level(t1) ≤ level(t2)`. -/
theorem level_curve_monotone (c : FanConfig) (hs : 1 ≤ c.steps)
    (_ht : c.min_temp ≤ c.max_temp) (hl : c.min_level ≤ c.max_level)
    {t1 t2 : ℚ} (h12 : t1 ≤ t2) :
    (calc_gain_level c t1).2 ≤ (calc_gain_level c t2).2 := by
  by_cases h1 : t1 ≤ c.min_temp
  · rw [calc_gain_level_low h1]
    exact calc_level_ge_min c hs hl t2
  · by_cases h2 : c.max_temp ≤ t1
    · have h3 : ¬t2 ≤ c.min_temp := by push_neg at h1 ⊢; linarith
      have h4 : c.max_temp ≤ t2 := le_trans h2 h12
      rw [calc_gain_level_high h1 h2, calc_gain_level_high h3 h4]
    · by_cases h4 : c.max_temp ≤ t2
      · rw [calc_gain_level_high (by push_neg at h1 ⊢; linarith) h4]
        exact calc_level_le_max c hs hl t1
      · have h3 : ¬t2 ≤ c.min_temp := by push_neg at h1 ⊢; linarith
        rw [calc_gain_level_interior h1 h2, calc_gain_level_interior h3 h4]
        push_neg at h1 h2 h3 h4
        have hts : 0 < temp_step c := by
          have : (0:ℚ) < c.max_temp - c.min_temp := by linarith
          exact div_pos this (steps_cast_pos hs)
        have hg : pythonRound ((t1 - c.min_temp) / temp_step c) ≤
            pythonRound ((t2 - c.min_temp) / temp_step c) := by
          apply pythonRound_mono
          rw [div_le_div_iff_of_pos_right hts]
          linarith
        have hmul : (pythonRound ((t1 - c.min_temp) / temp_step c) : ℚ) *
            level_step c ≤
            (pythonRound ((t2 - c.min_temp) / temp_step c) : ℚ) *
            level_step c :=
          mul_le_mul_of_nonneg_right (by exact_mod_cast hg)
            (level_step_nonneg hs hl)
        have := pythonRound_mono hmul
        omega

theorem level_curve_monotone_witness :
    (calc_gain_level cpu_zone_default_config 37).2 ≤
      (calc_gain_level cpu_zone_default_config 52).2 := by
  apply level_curve_monotone cpu_zone_default_config
  · norm_num [cpu_zone_default_config]
  · norm_num [cpu_zone_default_config]
  · norm_num [cpu_zone_default_config]
  · norm_num

/-- C2: when the polling interval has elapsed and the new reading is within
the sensitivity band of `last_temp`, the tick returns with `last_temp` and
`last_level` unchanged and no fan-level write, while `last_time` is still
advanced to the current time; no level is computed and no level log is
emitted. -/
theorem hysteresis_steady_frame (c : FanConfig) (s : FanState)
    (current_time t : ℚ) (w : Bool)
    (hpoll : c.polling ≤ current_time - s.last_time)
    (hsens : |t - s.last_temp| < c.sensitivity) :
    FanController.run c s current_time (some t) w =
      ⟨⟨current_time, s.last_temp, s.last_level⟩, [],
       [⟨LOG_DEBUG, .new_temperature⟩], false⟩ :=
  run_steady c s current_time t w hpoll hsens

theorem hysteresis_steady_frame_witness :
    FanController.run cpu_zone_default_config ⟨0, 40, 50⟩ 5
        (some (42.5 : ℚ)) true =
      ⟨⟨5, 40, 50⟩, [], [⟨LOG_DEBUG, .new_temperature⟩], false⟩ := by
  have h := hysteresis_steady_frame cpu_zone_default_config ⟨0, 40, 50⟩ 5
    (42.5 : ℚ) true (by norm_num [cpu_zone_default_config])
    (by norm_num [cpu_zone_default_config, abs_lt])
  simpa using h

/-!
## C4, C5, C10 — tick failure semantics, orchestrator loop, initial state
-/

/-- Shared helper: a tick whose polling gate has passed and whose temperature
read raises leaves `last_temp` and `last_level` unchanged, performs no write
and no log call, and propagates the exception — but `last_time` has already
been advanced (source line `self.last_time = current_time` precedes the
read). -/
theorem run_read_failure (c : FanConfig) (s : FanState) (current_time : ℚ)
    (w : Bool) (hpoll : c.polling ≤ current_time - s.last_time) :
    FanController.run c s current_time none w =
      ⟨⟨current_time, s.last_temp, s.last_level⟩, [], [], true⟩ := by
  unfold FanController.run
  rw [if_neg (not_lt.mpr hpoll)]

/-- C4 counterexample: with polling 2, previous state
`(last_time, last_temp, last_level) = (0, 40, 50)` and a sensor-read failure
at time 5, the tick aborts but the controller state is `(5, 40, 50)`, not the
state `(0, 40, 50)` of the previous successful tick: the last-poll timestamp
was already advanced before the read. -/
theorem tick_abort_state_changed_cex :
    (FanController.run cpu_zone_default_config ⟨0, 40, 50⟩ 5 none true).raised
      = true ∧
    (FanController.run cpu_zone_default_config ⟨0, 40, 50⟩ 5 none true).state
      ≠ ⟨0, 40, 50⟩ := by
  norm_num [FanController.run, cpu_zone_default_config, FanState.mk.injEq]

/-- C4 (amended): an I/O failure aborts the tick (the exception propagates,
no fan-level write is recorded) and the next scheduled tick retries from the
resulting state, but the state is not the one of the previous successful
tick: on a sensor-read failure `last_temp` and `last_level` are unchanged
while `last_time` has already been advanced to the current time; on a
fan-level write failure `last_time`, `last_temp` and `last_level` have all
already been updated to the new values. -/
theorem tick_abort_mutated_state (c : FanConfig) (s : FanState)
    (current_time : ℚ)
    (hpoll : c.polling ≤ current_time - s.last_time) :
    (∀ w, FanController.run c s current_time none w =
      ⟨⟨current_time, s.last_temp, s.last_level⟩, [], [], true⟩) ∧
    (∀ t, c.sensitivity ≤ |t - s.last_temp| →
      (calc_gain_level c t).2 ≠ s.last_level →
      FanController.run c s current_time (some t) false =
        ⟨⟨current_time, t, (calc_gain_level c t).2⟩, [],
         [⟨LOG_DEBUG, .new_temperature⟩], true⟩) := by
  constructor
  · intro w
    exact run_read_failure c s current_time w hpoll
  · intro t hsens hlvl
    unfold FanController.run
    rw [if_neg (not_lt.mpr hpoll)]
    simp only []
    rw [if_neg (not_lt.mpr hsens), if_neg hlvl]
    simp

theorem tick_abort_mutated_state_witness :
    FanController.run cpu_zone_default_config ⟨0, 40, 50⟩ 5 none true =
      ⟨⟨5, 40, 50⟩, [], [], true⟩ ∧
    FanController.run cpu_zone_default_config ⟨0, 40, 50⟩ 5 (some 50) false =
      ⟨⟨5, 50, 78⟩, [], [⟨LOG_DEBUG, .new_temperature⟩], true⟩ := by
  have h := tick_abort_mutated_state cpu_zone_default_config ⟨0, 40, 50⟩ 5
    (by norm_num [cpu_zone_default_config])
  refine ⟨h.1 true, ?_⟩
  have h2 := h.2 50 (by norm_num [cpu_zone_default_config, abs_lt])
    (by norm_num [calc_gain_level, cpu_zone_default_config, temp_step,
      level_step, pythonRound])
  rw [h2]
  norm_num [calc_gain_level, cpu_zone_default_config, temp_step, level_step,
    pythonRound]

/-- C5 counterexample: both zones enabled, the CPU zone's sensor read fails
at time 5 while the HD zone's tick would have run (its gate has elapsed): the
iteration crashes (`crashed = true`, the exception is not caught), nothing at
all is logged (in particular nothing at ERROR severity), and the HD zone's
state is untouched — its tick never proceeds. -/
theorem main_loop_uncaught_error_cex :
    main_iteration true true cpu_zone_default_config ⟨0, 40, 50⟩
        cpu_zone_default_config ⟨0, 40, 50⟩ 5 none (some 50) true true =
      ⟨⟨5, 40, 50⟩, ⟨0, 40, 50⟩, [], [], true⟩ := by
  norm_num [main_iteration, FanController.run, cpu_zone_default_config]

/-- C5 (amended): per-tick I/O errors are not caught at the tick boundary:
neither `FanController.run` nor the `main` loop has an exception handler, so
when the CPU zone's tick raises, the iteration terminates the loop
(`crashed`), no log call is made on the failure path (in particular none at
ERROR severity), no write is issued, and the HD zone's tick in that iteration
does not proceed (its state is untouched). -/
theorem main_loop_error_propagates (cpu_c hd_c : FanConfig)
    (cpu_s hd_s : FanState) (t : ℚ) (hd_read : Option ℚ) (cw hw : Bool)
    (hpoll : cpu_c.polling ≤ t - cpu_s.last_time) :
    (main_iteration true true cpu_c cpu_s hd_c hd_s t none hd_read cw hw).crashed
      = true ∧
    (main_iteration true true cpu_c cpu_s hd_c hd_s t none hd_read cw hw).hd_state
      = hd_s ∧
    (main_iteration true true cpu_c cpu_s hd_c hd_s t none hd_read cw hw).writes
      = [] ∧
    (main_iteration true true cpu_c cpu_s hd_c hd_s t none hd_read cw hw).logs
      = [] := by
  have hc := run_read_failure cpu_c cpu_s t cw hpoll
  simp [main_iteration, hc]

theorem main_loop_error_propagates_witness :
    (main_iteration true true cpu_zone_default_config ⟨0, 40, 50⟩
        cpu_zone_default_config ⟨10, 42, 60⟩ 5 none (some 50) true
        true).crashed = true ∧
    (main_iteration true true cpu_zone_default_config ⟨0, 40, 50⟩
        cpu_zone_default_config ⟨10, 42, 60⟩ 5 none (some 50) true
        true).hd_state = ⟨10, 42, 60⟩ := by
  have h := main_loop_error_propagates cpu_zone_default_config
    cpu_zone_default_config ⟨0, 40, 50⟩ ⟨10, 42, 60⟩ 5 (some 50) true true
    (by norm_num [cpu_zone_default_config])
  exact ⟨h.1, h.2.1⟩

/-- C10: `FanController.__init__` initializes `last_temp` and `last_level` to
0 and `last_time` to `now - (polling + 1)`, so any first tick at a time not
earlier than construction passes the polling gate, and its hysteresis test
compares the first reading against 0 °C: a first reading with `|t|` below
the sensitivity produces no level computation and no fan-level write, leaving
`last_temp = 0` and `last_level = 0`. -/
theorem initial_state_first_tick (ipmi_zone count temp_calc steps : ℤ)
    (sensitivity polling min_temp max_temp : ℚ) (min_level max_level : ℤ)
    (hwmon_str : List String) (glob_fn : String → List String)
    (isfile : String → Bool) (test_read_ok : Bool) (now : ℚ)
    (c : FanConfig) (s : FanState) (paths : List String)
    (h : fan_controller_init ipmi_zone count temp_calc steps sensitivity
        polling min_temp max_temp min_level max_level hwmon_str glob_fn
        isfile test_read_ok now = .ok (c, s, paths)) :
    s.last_temp = 0 ∧ s.last_level = 0 ∧
    s.last_time = now - (polling + 1) ∧
    ∀ current_time t w, now ≤ current_time → |t| < c.sensitivity →
      FanController.run c s current_time (some t) w =
        ⟨⟨current_time, 0, 0⟩, [], [⟨LOG_DEBUG, .new_temperature⟩],
         false⟩ := by
  unfold fan_controller_init at h
  split_ifs at h <;> try exact Except.noConfusion h
  all_goals rcases hb : build_hwmon_path count.toNat hwmon_str glob_fn isfile
    with e | ps <;> rw [hb] at h <;> try exact Except.noConfusion h
  simp only [Except.ok.injEq, Prod.mk.injEq] at h
  obtain ⟨hc, hs, hp⟩ := h
  subst hc
  subst hs
  refine ⟨rfl, rfl, rfl, ?_⟩
  intro current_time t w hct hsen
  rw [run_steady _ _ _ _ _ (by simp only []; linarith) (by simpa using hsen)]

theorem initial_state_first_tick_witness :
    FanController.run cpu_zone_default_config ⟨97, 0, 0⟩ 100 (some 2) true =
      ⟨⟨100, 0, 0⟩, [], [⟨LOG_DEBUG, .new_temperature⟩], false⟩ := by
  have h := initial_state_first_tick 0 1 1 6 3 2 30 60 35 100 []
    (fun _ => []) (fun _ => true) true 100 cpu_zone_default_config
    ⟨97, 0, 0⟩ []
    (by norm_num [fan_controller_init, build_hwmon_path,
      cpu_zone_default_config, CPU_ZONE, HD_ZONE, CALC_MIN, CALC_AVG,
      CALC_MAX])
  exact h.2.2.2 100 2 true (by norm_num)
    (by norm_num [cpu_zone_default_config, abs_lt])

/-!
## C7 — temperature aggregation
-/

theorem foldl_min_le_init (l : List ℚ) (a : ℚ) :
    l.foldl (fun m v => if v < m then v else m) a ≤ a := by
  induction l generalizing a with
  | nil => simp
  | cons x xs ih =>
    simp only [List.foldl_cons]
    by_cases hx : x < a
    · rw [if_pos hx]
      exact le_trans (ih x) (le_of_lt hx)
    · rw [if_neg hx]
      exact ih a

theorem foldl_min_le_mem (l : List ℚ) (a : ℚ) :
    ∀ v ∈ l, l.foldl (fun m v => if v < m then v else m) a ≤ v := by
  induction l generalizing a with
  | nil => simp
  | cons x xs ih =>
    intro v hv
    rcases List.mem_cons.mp hv with rfl | hv
    · simp only [List.foldl_cons]
      by_cases hx : v < a
      · rw [if_pos hx]
        exact foldl_min_le_init xs v
      · rw [if_neg hx]
        exact le_trans (foldl_min_le_init xs a) (not_lt.mp hx)
    · exact ih _ v hv

theorem foldl_min_mem_or_init (l : List ℚ) (a : ℚ) :
    l.foldl (fun m v => if v < m then v else m) a ∈ l ∨
      l.foldl (fun m v => if v < m then v else m) a = a := by
  induction l generalizing a with
  | nil => simp
  | cons x xs ih =>
    simp only [List.foldl_cons]
    by_cases hx : x < a
    · rw [if_pos hx]
      rcases ih x with h | h
      · exact Or.inl (List.mem_cons_of_mem _ h)
      · exact Or.inl (by rw [h]; exact List.mem_cons_self _ _)
    · rw [if_neg hx]
      rcases ih a with h | h
      · exact Or.inl (List.mem_cons_of_mem _ h)
      · exact Or.inr h

theorem foldl_max_init_le (l : List ℚ) (a : ℚ) :
    a ≤ l.foldl (fun m v => if m < v then v else m) a := by
  induction l generalizing a with
  | nil => simp
  | cons x xs ih =>
    simp only [List.foldl_cons]
    by_cases hx : a < x
    · rw [if_pos hx]
      exact le_trans (le_of_lt hx) (ih x)
    · rw [if_neg hx]
      exact ih a

theorem foldl_max_mem_le (l : List ℚ) (a : ℚ) :
    ∀ v ∈ l, v ≤ l.foldl (fun m v => if m < v then v else m) a := by
  induction l generalizing a with
  | nil => simp
  | cons x xs ih =>
    intro v hv
    rcases List.mem_cons.mp hv with rfl | hv
    · simp only [List.foldl_cons]
      by_cases hx : a < v
      · rw [if_pos hx]
        exact foldl_max_init_le xs v
      · rw [if_neg hx]
        exact le_trans (not_lt.mp hx) (foldl_max_init_le xs a)
    · exact ih _ v hv

theorem foldl_max_mem_or_init (l : List ℚ) (a : ℚ) :
    l.foldl (fun m v => if m < v then v else m) a ∈ l ∨
      l.foldl (fun m v => if m < v then v else m) a = a := by
  induction l generalizing a with
  | nil => simp
  | cons x xs ih =>
    simp only [List.foldl_cons]
    by_cases hx : a < x
    · rw [if_pos hx]
      rcases ih x with h | h
      · exact Or.inl (List.mem_cons_of_mem _ h)
      · exact Or.inl (by rw [h]; exact List.mem_cons_self _ _)
    · rw [if_neg hx]
      rcases ih a with h | h
      · exact Or.inl (List.mem_cons_of_mem _ h)
      · exact Or.inr h

theorem get_min_temp_eq_fold (raws : List ℚ) :
    get_min_temp raws =
      (read_values raws).foldl (fun m v => if v < m then v else m) 1000 := by
  rw [get_min_temp, read_values, List.foldl_map]

theorem get_max_temp_eq_fold (raws : List ℚ) :
    get_max_temp raws =
      (read_values raws).foldl (fun m v => if m < v then v else m) (-1) := by
  rw [get_max_temp, read_values, List.foldl_map]

theorem get_avg_temp_foldl (raws : List ℚ) (x : ℚ) (n : ℕ) :
    raws.foldl (fun ac r => (ac.1 + r / 1000, ac.2 + 1)) (x, n) =
      (x + (read_values raws).sum, n + raws.length) := by
  induction raws generalizing x n with
  | nil => simp [read_values]
  | cons r rs ih =>
    simp only [List.foldl_cons, ih, read_values, List.map_cons, List.sum_cons,
      List.length_cons, Prod.mk.injEq]
    exact ⟨by ring, by omega⟩

/-- C7 counterexample: with two readable endpoints reporting raw values
−2000 and −3000 millidegrees (−2 °C and −3 °C), `get_max_temp` returns
−1.0 °C — the initial value of its `maximum` accumulator — which is not the
maximum of the readings (and not a reading at all): MAX does not return the
maximum of the per-endpoint readings on every input. -/
theorem aggregation_max_cex :
    get_max_temp [-2000, -3000] = -1 ∧
    read_values [-2000, -3000] = [-2, -3] ∧
    (-1 : ℚ) ∉ ([-2, -3] : List ℚ) := by
  refine ⟨?_, ?_, ?_⟩
  · norm_num [get_max_temp]
  · norm_num [read_values]
  · norm_num

/-- C7 (amended): with all endpoints readable, MIN aggregation returns
`min(1000.0, minimum of the readings)` (each raw value divided by 1000): its
result is a lower bound of the readings, is at most the accumulator seed
1000.0, and is either a reading or exactly 1000.0 — so it is the true
minimum whenever some reading is ≤ 1000 °C.  Symmetrically MAX returns
`max(-1.0, maximum of the readings)`.  AVG returns the exact arithmetic mean
over the endpoints read in this call; AVG of raw readings
[30000, 40000, 50000] over 3 endpoints yields 40.0 °C exactly. -/
theorem aggregation_spec (raws : List ℚ) (_hne : raws ≠ []) :
    ((∀ v ∈ read_values raws, get_min_temp raws ≤ v) ∧
     get_min_temp raws ≤ 1000 ∧
     (get_min_temp raws ∈ read_values raws ∨ get_min_temp raws = 1000)) ∧
    ((∀ v ∈ read_values raws, v ≤ get_max_temp raws) ∧
     -1 ≤ get_max_temp raws ∧
     (get_max_temp raws ∈ read_values raws ∨ get_max_temp raws = -1)) ∧
    get_avg_temp raws = (read_values raws).sum / (raws.length : ℚ) ∧
    get_avg_temp [30000, 40000, 50000] = 40 := by
  refine ⟨⟨?_, ?_, ?_⟩, ⟨?_, ?_, ?_⟩, ?_, ?_⟩
  · rw [get_min_temp_eq_fold]
    exact foldl_min_le_mem _ _
  · rw [get_min_temp_eq_fold]
    exact foldl_min_le_init _ _
  · rw [get_min_temp_eq_fold]
    exact foldl_min_mem_or_init _ _
  · rw [get_max_temp_eq_fold]
    exact foldl_max_mem_le _ _
  · rw [get_max_temp_eq_fold]
    exact foldl_max_init_le _ _
  · rw [get_max_temp_eq_fold]
    exact foldl_max_mem_or_init _ _
  · rw [get_avg_temp, get_avg_temp_foldl]
    norm_num
  · norm_num [get_avg_temp, get_avg_temp_foldl, read_values]

theorem aggregation_spec_witness :
    get_avg_temp [30000, 40000, 50000] = 40 ∧
    get_min_temp [30000, 40000, 50000] ≤ 30 := by
  have h := aggregation_spec [30000, 40000, 50000] (by simp)
  exact ⟨h.2.2.2, h.1.1 30 (by norm_num [read_values])⟩

/-!
## C3 — standby guard transitions
-/

theorem go_standby_aux_fst (l : List Bool) : ∀ i,
    (go_standby_aux l i).1 = List.replicate l.length true := by
  induction l with
  | nil => intro i; rfl
  | cons b rest ih =>
    intro i
    cases b <;> simp [go_standby_aux, ih, List.replicate_succ]

theorem go_standby_aux_snd (l : List Bool) : ∀ i,
    (go_standby_aux l i).2 =
      ((List.range l.length).filter (fun j => !(l.getD j true))).map
        (fun j => j + i) := by
  induction l with
  | nil => intro i; rfl
  | cons b rest ih =>
    intro i
    have harith : ∀ j : ℕ, j + 1 + i = j + (i + 1) := fun j => by omega
    cases b <;>
      simp [go_standby_aux, List.range_succ_eq_map, List.filter_cons,
        List.filter_map, List.map_map, Function.comp_def,
        List.getElem?_cons_succ, List.getD_cons_succ, ih, harith]

theorem count_true_lt_iff (l : List Bool) :
    l.count true < l.length ↔ ∃ b ∈ l, b = false := by
  have hle := List.count_le_length true l
  constructor
  · intro h
    by_contra hnone
    push_neg at hnone
    have hall : ∀ b ∈ l, true = b := by
      intro b hb
      have := hnone b hb
      cases b
      · exact absurd rfl this
      · rfl
    exact absurd (List.count_eq_length.mpr hall) (by omega)
  · rintro ⟨b, hb, hbf⟩
    rcases lt_or_eq_of_le hle with h | h
    · exact h
    · exfalso
      have := List.count_eq_length.mp h b hb
      subst hbf
      exact Bool.noConfusion this

/-- C3: on a standby-guard invocation with a fresh per-disk query of the
configured length: (a) if the aggregate flag is false and the number of
disks reporting standby is at least the threshold, the guard forces every
disk still reporting active into standby (one write per such disk, by index
in configured order), sets the flag true and records the timestamp; (b) if
the flag is true and at least one disk reports active, it clears the flag
and records the timestamp with no standby write; (c) otherwise the flag and
the timestamp are unchanged (and no write or log happens). -/
theorem run_standby_guard_spec (count : ℕ) (limit : ℤ) (query : List Bool)
    (cur_time : ℚ) (s : StandbyState) (hlen : query.length = count) :
    (s.standby_flag = false → limit ≤ (query.count true : ℤ) →
      run_standby_guard count limit query cur_time s =
        ⟨⟨true, cur_time, List.replicate count true⟩,
         (List.range count).filter (fun j => !(query.getD j true)),
         [⟨LOG_INFO, .standby_transition⟩]⟩) ∧
    (s.standby_flag = true → (∃ b ∈ query, b = false) →
      run_standby_guard count limit query cur_time s =
        ⟨⟨false, cur_time, query⟩, [], [⟨LOG_INFO, .standby_transition⟩]⟩) ∧
    ((s.standby_flag = false ∧ (query.count true : ℤ) < limit) ∨
      (s.standby_flag = true ∧ ∀ b ∈ query, b = true) →
      run_standby_guard count limit query cur_time s =
        ⟨⟨s.standby_flag, s.standby_change_timestamp, query⟩, [], []⟩) := by
  refine ⟨?_, ?_, ?_⟩
  · intro hf hl
    unfold run_standby_guard check_standby_state
    rw [if_pos ⟨by simp [hf], hl⟩]
    simp [go_standby_state, go_standby_aux_fst, go_standby_aux_snd, hlen]
  · intro hf hex
    have hlt : query.count true < query.length :=
      (count_true_lt_iff query).mpr hex
    unfold run_standby_guard check_standby_state
    rw [if_neg (by simp [hf]), if_pos ⟨by simp [hf], by rw [← hlen]; exact hlt⟩]
  · rintro (⟨hf, hlt⟩ | ⟨hf, hall⟩)
    · unfold run_standby_guard check_standby_state
      rw [if_neg (fun hc => absurd hc.2 (not_le.mpr hlt)),
        if_neg (fun hc => by rw [hf] at hc; exact Bool.noConfusion hc.1)]
    · have hcnt : query.count true = query.length :=
        List.count_eq_length.mpr (fun b hb => (hall b hb).symm)
      unfold run_standby_guard check_standby_state
      rw [if_neg (fun hc => by rw [hf] at hc; simp at hc),
        if_neg (fun hc => by rw [hcnt, hlen] at hc; exact absurd hc.2 (lt_irrefl _))]

theorem run_standby_guard_spec_witness :
    run_standby_guard 4 1 [false, true, false, false] 100
        ⟨false, 0, [false, false, false, false]⟩ =
      ⟨⟨true, 100, [true, true, true, true]⟩, [0, 2, 3],
       [⟨LOG_INFO, .standby_transition⟩]⟩ ∧
    run_standby_guard 4 1 [false, true, true, true] 200
        ⟨true, 100, [true, true, true, true]⟩ =
      ⟨⟨false, 200, [false, true, true, true]⟩, [],
       [⟨LOG_INFO, .standby_transition⟩]⟩ := by
  have h1 := run_standby_guard_spec 4 1 [false, true, false, false] 100
    ⟨false, 0, [false, false, false, false]⟩ rfl
  have h2 := run_standby_guard_spec 4 1 [false, true, true, true] 200
    ⟨true, 100, [true, true, true, true]⟩ rfl
  constructor
  · rw [h1.1 rfl (by decide)]
    rfl
  · rw [h2.2.1 rfl ⟨false, by simp, rfl⟩]

/-!
## C8, C9 — construction validation and single-disk guard disabling
-/

/-- C8 counterexample: `HdZone` construction with 2 disks, the standby guard
enabled and `standby_hd_limit = 0` succeeds — the source checks only
`standby_hd_limit < 0` and `standby_hd_limit > count`, so the threshold
bound `1 ≤ threshold` of the claim is not enforced. -/
theorem standby_limit_zero_accepted_cex :
    hd_zone_init 2 ["a", "b"] 1 4 2 10 32 46 35 100 []
        (fun _ => []) (fun _ => true) true true 0 [false, false] 0 =
      .ok (⟨⟨1, 2, 1, 4, 2, 10, 32, 46, 35, 100⟩, ⟨-11, 0, 0⟩, true, 0,
            some ⟨false, 0, [false, false]⟩⟩, []) := by
  norm_num [hd_zone_init, fan_controller_init, build_hwmon_path,
    check_standby_state, HD_ZONE, CPU_ZONE, CALC_MIN, CALC_AVG, CALC_MAX]
  simp

set_option maxHeartbeats 1600000 in
/-- C8 (amended): zone-controller construction fails (an error is raised and
no controller is created) when a nonempty sensor-endpoint list has a length
different from the configured sensor count, or when `max_temp < min_temp`,
or when `max_level < min_level`; and standby-guard construction (guard
enabled, more than one disk) enforces `0 ≤ threshold ≤ disk count` — a
threshold outside these bounds is rejected (`1 ≤ threshold` is not
required: threshold 0 is accepted). -/
theorem construction_validation (ipmi_zone count temp_calc steps : ℤ)
    (sensitivity polling min_temp max_temp : ℚ) (min_level max_level : ℤ)
    (hwmon_str hd_names : List String) (glob_fn : String → List String)
    (isfile : String → Bool) (test_read_ok cfg_enabled : Bool) (limit : ℤ)
    (initial_query : List Bool) (now : ℚ) :
    (hwmon_str ≠ [] → (hwmon_str.length : ℤ) ≠ count →
      is_config_error (fan_controller_init ipmi_zone count temp_calc steps
        sensitivity polling min_temp max_temp min_level max_level hwmon_str
        glob_fn isfile test_read_ok now) = true) ∧
    (max_temp < min_temp →
      is_config_error (fan_controller_init ipmi_zone count temp_calc steps
        sensitivity polling min_temp max_temp min_level max_level hwmon_str
        glob_fn isfile test_read_ok now) = true) ∧
    (max_level < min_level →
      is_config_error (fan_controller_init ipmi_zone count temp_calc steps
        sensitivity polling min_temp max_temp min_level max_level hwmon_str
        glob_fn isfile test_read_ok now) = true) ∧
    (cfg_enabled = true → count ≠ 1 → (limit < 0 ∨ count < limit) →
      is_config_error (hd_zone_init count hd_names temp_calc steps
        sensitivity polling min_temp max_temp min_level max_level hwmon_str
        glob_fn isfile test_read_ok cfg_enabled limit initial_query now)
        = true) := by
  refine ⟨?_, ?_, ?_, ?_⟩
  · intro hne hlen
    have hemp : hwmon_str.isEmpty = false := by
      simpa [List.isEmpty_iff] using hne
    unfold fan_controller_init
    split_ifs <;> try rfl
    all_goals rw [show build_hwmon_path count.toNat hwmon_str glob_fn isfile =
        .error .hwmon_count_mismatch from by
      unfold build_hwmon_path
      rw [hemp]
      simp only [Bool.false_eq_true, if_false]
      rw [if_pos (show hwmon_str.length ≠ count.toNat by omega)]]
    all_goals rfl
  · intro hmt
    unfold fan_controller_init
    split_ifs <;> first | exact absurd hmt (by assumption) | rfl
  · intro hml
    unfold fan_controller_init
    split_ifs <;> first | exact absurd hml (by assumption) | rfl
  · intro he hc1 hlim
    subst he
    unfold hd_zone_init
    split_ifs <;> try rfl
    all_goals
      rcases fan_controller_init HD_ZONE count temp_calc steps sensitivity
          polling min_temp max_temp min_level max_level hwmon_str glob_fn
          isfile test_read_ok now with e | ⟨c, s, paths⟩ <;>
        first | rfl | omega

theorem construction_validation_witness :
    is_config_error (fan_controller_init 1 2 1 4 2 10 46 32 100 35 ["x"]
      (fun _ => []) (fun _ => true) true 0) = true ∧
    is_config_error (hd_zone_init 2 ["a", "b"] 1 4 2 10 46 32 100 35 ["x"]
      (fun _ => []) (fun _ => true) true true (-1) [] 0) = true := by
  have h := construction_validation 1 2 1 4 2 10 46 32 100 35 ["x"]
    ["a", "b"] (fun _ => []) (fun _ => true) true true (-1) [] 0
  exact ⟨h.2.1 (by norm_num), h.2.2.2 rfl (by norm_num) (Or.inl (by norm_num))⟩

/-- C9: when the HD zone's disk count equals 1, the standby guard is
force-disabled at construction regardless of the configured enabled flag,
the INFO notice is logged exactly once, and the per-invocation hook
`callback_func` then does nothing (state unchanged, no standby write, no
log). -/
theorem standby_guard_single_disk_disabled (hd_names : List String)
    (temp_calc steps : ℤ) (sensitivity polling min_temp max_temp : ℚ)
    (min_level max_level : ℤ) (hwmon_str : List String)
    (glob_fn : String → List String) (isfile : String → Bool)
    (test_read_ok cfg_enabled : Bool) (limit : ℤ) (initial_query : List Bool)
    (now : ℚ) (z : HdZone) (logs : List LogEvent)
    (h : hd_zone_init 1 hd_names temp_calc steps sensitivity polling min_temp
        max_temp min_level max_level hwmon_str glob_fn isfile test_read_ok
        cfg_enabled limit initial_query now = .ok (z, logs)) :
    z.standby_guard_enabled = false ∧
    logs.count ⟨LOG_INFO, .standby_disabled_notice⟩ = 1 ∧
    ∀ query cur_time, callback_func z query cur_time = (z, [], []) := by
  unfold hd_zone_init at h
  rcases hf : fan_controller_init HD_ZONE 1 temp_calc steps sensitivity
      polling min_temp max_temp min_level max_level hwmon_str glob_fn isfile
      test_read_ok now with e | ⟨c, s, paths⟩ <;> rw [hf] at h
  · split_ifs at h
  · norm_num at h
    split_ifs at h
    simp only [Except.ok.injEq, Prod.mk.injEq] at h
    obtain ⟨hz, hl⟩ := h
    subst hz
    subst hl
    refine ⟨rfl, by decide, ?_⟩
    intro query cur_time
    simp [callback_func]

theorem standby_guard_single_disk_disabled_witness :
    HdZone.standby_guard_enabled
        ⟨⟨1, 1, 1, 4, 2, 10, 32, 46, 35, 100⟩, ⟨-11, 0, 0⟩, false, 1, none⟩
      = false ∧
    callback_func
        ⟨⟨1, 1, 1, 4, 2, 10, 32, 46, 35, 100⟩, ⟨-11, 0, 0⟩, false, 1, none⟩
        [false] 5 =
      (⟨⟨1, 1, 1, 4, 2, 10, 32, 46, 35, 100⟩, ⟨-11, 0, 0⟩, false, 1, none⟩,
       [], []) := by
  have h := standby_guard_single_disk_disabled ["a"] 1 4 2 10 32 46 35 100 []
    (fun _ => []) (fun _ => true) true true 1 [false] 0
    ⟨⟨1, 1, 1, 4, 2, 10, 32, 46, 35, 100⟩, ⟨-11, 0, 0⟩, false, 1, none⟩
    [⟨LOG_INFO, .standby_disabled_notice⟩]
    (by norm_num [hd_zone_init, fan_controller_init, build_hwmon_path,
      HD_ZONE, CPU_ZONE, CALC_MIN, CALC_AVG, CALC_MAX])
  exact ⟨h.1, h.2.2 [false] 5⟩

end Smfc
